import Mathlib

/-!
# Verification of the `slack_notifier` threshold-gated notifier

Shallow embedding of `src/slack_notifier/notifier.py` (class `SlackNotifier`).
Python integers are modelled as `Nat`/`Int`; the percentage computed by true
division (`processed_files / total_files * 100`) is modelled exactly in `ℚ`.
Stateful methods are modelled as functions from the notifier state to a result
paired with the new state.  The HTTP transport (`requests.post` +
`Response.raise_for_status`) is modelled by an explicit outcome value passed in.
-/

namespace SlackNotifier

/-- Severity levels, from the Python `NotificationLevel` enum. -/
inductive NotificationLevel
  | SUCCESS
  | WARNING
  | ERROR
  | INFO
  | DEBUG
deriving DecidableEq, Repr

/-- The glyph attached to each level (the value of the enum member). -/
def levelGlyph : NotificationLevel → String
  | .SUCCESS => "✅"
  | .WARNING => "⚠️"
  | .ERROR => "❌"
  | .INFO => "ℹ️"
  | .DEBUG => "🔍"

/-- The name of the enum member, as `level.name` in Python. -/
def levelName : NotificationLevel → String
  | .SUCCESS => "SUCCESS"
  | .WARNING => "WARNING"
  | .ERROR => "ERROR"
  | .INFO => "INFO"
  | .DEBUG => "DEBUG"

/-- The mutable and configuration state of a `SlackNotifier` instance.
`notification_percentages` holds the parsed thresholds, `last_notification_pct`
the highest threshold already notified.  `start_time` is wall-clock and is
abstracted away: elapsed time enters `send_progress_notification` as an
explicit parameter. -/
structure NotifierState where
  notification_percentages : List Int
  last_notification_pct : Int
  total_files : Nat
  processed_files : Nat
  error_files : Nat
  webhook_url : Option String
  use_logging : Bool
  system_name : String
  notification_log_path : String
deriving DecidableEq, Repr

/-- Embeds `self.notification_percentages = sorted([int(x) for x in pcts.split(",")])`:
the integers parsed from the configuration string, sorted ascending (the `sorted` builtin
of Python is a stable ascending sort; it neither de-duplicates nor clamps). -/
def init_notification_percentages (xs : List Int) : List Int :=
  List.insertionSort (· ≤ ·) xs

/-- The loop body of `should_send_notification`: scan the thresholds in order
and return the first `t` with `current_pct >= t > last_notification_pct`
(a chained comparison in Python). -/
def find_fire (current_pct : ℚ) (last : Int) : List Int → Option Int
  | [] => none
  | t :: ts =>
      if (t : ℚ) ≤ current_pct ∧ last < t then some t
      else find_fire current_pct last ts

/-- Embeds `SlackNotifier.should_send_notification`: returns `false` when
`total_files == 0`; otherwise computes `current_pct` and fires the first
threshold `t` in the sorted list with `current_pct >= t > last_notification_pct`,
setting `last_notification_pct := t`. -/
def should_send_notification (s : NotifierState) : Bool × NotifierState :=
  if s.total_files = 0 then (false, s)
  else
    let current_pct : ℚ := (s.processed_files : ℚ) / (s.total_files : ℚ) * 100
    match find_fire current_pct s.last_notification_pct s.notification_percentages with
    | some t => (true, { s with last_notification_pct := t })
    | none => (false, s)

/-- A field value in the `fields` mapping: a plain value (rendered by `str()`)
or a nested dictionary (rendered as a bulleted list). -/
inductive FieldValue
  | str (v : String)
  | nested (kvs : List (String × String))
deriving DecidableEq, Repr

/-- A Slack presentation block, from `_create_message_blocks`:
header, plain section text, a field-group section, or the context footer. -/
inductive Block
  | header (text : String)
  | sectionText (text : String)
  | sectionFields (fields : List String)
  | context (text : String)
deriving DecidableEq, Repr

/-- Formats one `fields` entry as in `_create_message_blocks`:
nested dictionaries become a bulleted list, other values `str(value)`. -/
def format_field_for_blocks : String × FieldValue → String
  | (key, FieldValue.str v) => "*" ++ key ++ ":*\n" ++ v
  | (key, FieldValue.nested kvs) =>
      "*" ++ key ++ ":*\n" ++
        String.intercalate "\n" (kvs.map fun p => "• " ++ p.1 ++ ": " ++ p.2)

/-- The slice loop `[formatted_fields[i:i+10] for i in range(0, len, 10)]`:
split a list into consecutive chunks of 10. -/
def chunks_of_ten : List α → List (List α)
  | [] => []
  | x :: xs => (x :: xs).take 10 :: chunks_of_ten ((x :: xs).drop 10)
termination_by l => l.length
decreasing_by simp [List.length_drop]; omega

/-- Embeds `SlackNotifier._create_message_blocks`: optional header from `title`, the
level/message section, the field groups (chunks of 10), one section per code
block entry, and the context footer.  `now` stands for the wall-clock string
`datetime.now().strftime(...)`. -/
def create_message_blocks (s : NotifierState) (level : NotificationLevel)
    (message : String) (title : Option String)
    (fields : List (String × FieldValue)) (fields_code_block : List (String × String))
    (now : String) : List Block :=
  (match title with
    | some t => [Block.header t]
    | none => []) ++
  [Block.sectionText (levelGlyph level ++ " *" ++ levelName level ++ "*\n" ++ message)] ++
  (if fields = [] then []
   else (chunks_of_ten (fields.map format_field_for_blocks)).map Block.sectionFields) ++
  (fields_code_block.map fun p =>
    Block.sectionText ("*" ++ p.1 ++ ":*\n```" ++ p.2 ++ "```")) ++
  [Block.context ("System: " ++ s.system_name ++ " | Sent at: " ++ now)]

/-- Embeds `_format_fields_for_logging`: empty string for an empty mapping, otherwise
a newline followed by one line per field (nested mappings indented). -/
def format_fields_for_logging (fields : List (String × FieldValue)) : String :=
  if fields = [] then ""
  else
    "\n" ++ String.intercalate "\n" (fields.map fun f =>
      match f with
      | (key, FieldValue.str v) => key ++ ": " ++ v
      | (key, FieldValue.nested kvs) =>
          key ++ ":\n" ++
            String.intercalate "\n" (kvs.map fun p => "    " ++ p.1 ++ ": " ++ p.2))

/-- Embeds `_format_code_blocks_for_logging`: empty string for an empty mapping,
otherwise a newline followed by `key:\nvalue` per entry. -/
def format_code_blocks_for_logging (fields_code_block : List (String × String)) : String :=
  if fields_code_block = [] then ""
  else
    "\n" ++ String.intercalate "\n"
      (fields_code_block.map fun p => p.1 ++ ":\n" ++ p.2)

/-- The log channel a record is written at, from the dispatch at the end of
`_log_notification` (ERROR at error, WARNING at warning, DEBUG at debug,
SUCCESS and INFO at info). -/
inductive LogChannel
  | error
  | warning
  | debug
  | info
deriving DecidableEq, Repr

/-- Channel dispatch of `_log_notification`. -/
def logChannelOf : NotificationLevel → LogChannel
  | .ERROR => LogChannel.error
  | .WARNING => LogChannel.warning
  | .DEBUG => LogChannel.debug
  | .SUCCESS => LogChannel.info
  | .INFO => LogChannel.info

/-- Embeds `SlackNotifier._log_notification`: assembles the multi-line record and the
channel it is logged at. -/
def log_notification (level : NotificationLevel) (message : String)
    (title : Option String) (fields : List (String × FieldValue))
    (fields_code_block : List (String × String)) : LogChannel × String :=
  let l1 : List String :=
    match title with
    | some t => ["=== " ++ t ++ " ==="]
    | none => []
  let l2 : List String := [levelGlyph level ++ " " ++ levelName level ++ ": " ++ message]
  let fields_str := format_fields_for_logging fields
  let l3 : List String := if fields_str = "" then [] else ["Fields:" ++ fields_str]
  let code_blocks_str := format_code_blocks_for_logging fields_code_block
  let l4 : List String := if code_blocks_str = "" then [] else ["Code Blocks:" ++ code_blocks_str]
  (logChannelOf level, String.intercalate "\n" (l1 ++ l2 ++ l3 ++ l4))

/-- Outcome of one `requests.post` call: an exception raised by the transport,
or a response carrying an HTTP status code. -/
inductive TransportResult
  | exn
  | ok (status : Nat)
deriving DecidableEq, Repr

/-- Models `requests.Response.raise_for_status` (documented behaviour of the
`requests` library): it raises `HTTPError` exactly when the status code is in
`[400, 600)`; informational, success and redirect-class codes do not raise. -/
def raise_for_status_raises (status : Nat) : Bool :=
  decide (400 ≤ status ∧ status < 600)

/-- The observable result of one `send_notification` call: the returned
boolean, the payloads of the outbound requests attempted (one entry per
`requests.post`), and the records appended to the notification log. -/
structure SendResult where
  success : Bool
  requests_sent : List (List Block)
  logged : List (LogChannel × String)
deriving DecidableEq, Repr

/-- Embeds `SlackNotifier.send_notification`: in logging mode, append one record and
return `True`; in remote mode, build the blocks, post once, and return `True`
iff the transport neither raised nor `raise_for_status` raised.  Every
exception inside the `try` is caught and turned into `False`; nothing
propagates and the state is not mutated. -/
def send_notification (s : NotifierState) (level : NotificationLevel)
    (message : String) (title : Option String)
    (fields : List (String × FieldValue)) (fields_code_block : List (String × String))
    (tr : TransportResult) (now : String) : NotifierState × SendResult :=
  if s.use_logging then
    (s, { success := true
          requests_sent := []
          logged := [log_notification level message title fields fields_code_block] })
  else
    let blocks := create_message_blocks s level message title fields fields_code_block now
    match tr with
    | TransportResult.exn =>
        (s, { success := false, requests_sent := [blocks], logged := [] })
    | TransportResult.ok status =>
        if raise_for_status_raises status then
          (s, { success := false, requests_sent := [blocks], logged := [] })
        else
          (s, { success := true, requests_sent := [blocks], logged := [] })

/-- Embeds the `send_success` wrapper. -/
def send_success (s : NotifierState) (message : String) (title : Option String)
    (fields : List (String × FieldValue)) (fields_code_block : List (String × String))
    (tr : TransportResult) (now : String) : NotifierState × SendResult :=
  send_notification s NotificationLevel.SUCCESS message title fields fields_code_block tr now

/-- Embeds the `send_warning` wrapper. -/
def send_warning (s : NotifierState) (message : String) (title : Option String)
    (fields : List (String × FieldValue)) (fields_code_block : List (String × String))
    (tr : TransportResult) (now : String) : NotifierState × SendResult :=
  send_notification s NotificationLevel.WARNING message title fields fields_code_block tr now

/-- Embeds the `send_error` wrapper. -/
def send_error (s : NotifierState) (message : String) (title : Option String)
    (fields : List (String × FieldValue)) (fields_code_block : List (String × String))
    (tr : TransportResult) (now : String) : NotifierState × SendResult :=
  send_notification s NotificationLevel.ERROR message title fields fields_code_block tr now

/-- Embeds the `send_info` wrapper. -/
def send_info (s : NotifierState) (message : String) (title : Option String)
    (fields : List (String × FieldValue)) (fields_code_block : List (String × String))
    (tr : TransportResult) (now : String) : NotifierState × SendResult :=
  send_notification s NotificationLevel.INFO message title fields fields_code_block tr now

/-- Embeds the `send_debug` wrapper. -/
def send_debug (s : NotifierState) (message : String) (title : Option String)
    (fields : List (String × FieldValue)) (fields_code_block : List (String × String))
    (tr : TransportResult) (now : String) : NotifierState × SendResult :=
  send_notification s NotificationLevel.DEBUG message title fields fields_code_block tr now

/-- Stands in for the Python float percent-formatting (`:.1f` / `:.2f`) of the
given exact rational.  Floating-point rounding and decimal rendering are
outside the embedding; no property below depends on this text. -/
def format_float (q : ℚ) : String :=
  toString q.num ++ "/" ++ toString q.den

/-- Embeds `SlackNotifier.send_progress_notification`: consult the gate first and
return immediately when it does not fire; otherwise increment `error_files`
when `success` is false, compute rate and percentage, and emit an INFO
notification through `send_info`.  `elapsed_hours` stands for
`(datetime.now() - start_time).total_seconds() / 3600`; `tr`/`now` are passed
through to the send path. -/
def send_progress_notification (s : NotifierState) (success : Bool)
    (elapsed_hours : ℚ) (tr : TransportResult) (now : String) :
    NotifierState × Option SendResult :=
  let r := should_send_notification s
  if r.1 = false then (r.2, none)
  else
    let s1 := r.2
    let s2 := if success then s1 else { s1 with error_files := s1.error_files + 1 }
    let processing_rate : ℚ :=
      if 0 < elapsed_hours then (s2.processed_files : ℚ) / elapsed_hours else 0
    let current_pct : ℚ := (s2.processed_files : ℚ) / (s2.total_files : ℚ) * 100
    let sent := send_info s2
      ("Processing Progress: " ++ format_float current_pct ++ "%") none
      [("Files Processed",
          FieldValue.str (toString s2.processed_files ++ " / " ++ toString s2.total_files)),
       ("Error Files", FieldValue.str (toString s2.error_files)),
       ("Processing Rate", FieldValue.str (format_float processing_rate ++ " files/hour")),
       ("Elapsed Time", FieldValue.str (format_float elapsed_hours ++ " hours"))]
      [] tr now
    (sent.1, some sent.2)

/-- A notifier state in logging mode with the given thresholds, last notified
threshold and progress counters (the other fields at their defaults). -/
def mkState (ts : List Int) (last : Int) (proc total : Nat) : NotifierState :=
  { notification_percentages := ts
    last_notification_pct := last
    total_files := total
    processed_files := proc
    error_files := 0
    webhook_url := none
    use_logging := true
    system_name := "sys"
    notification_log_path := "notifications.log" }

/-- One observation of the gate: the `(processed_files, total_files)` the
driver had set before the call, whether the call returned true, and
`last_notification_pct` after the call. -/
structure GateEvent where
  call : Nat × Nat
  fired : Bool
  lastAfter : Int
deriving DecidableEq, Repr

/-- One call of `should_send_notification` on a state assembled from the
thresholds, the current `last_notification_pct` and the counters set by the driver;
returns the fired flag and the new `last_notification_pct`. -/
def gate_step (ts : List Int) (last : Int) (c : Nat × Nat) : Bool × Int :=
  let r := should_send_notification (mkState ts last c.1 c.2)
  (r.1, r.2.last_notification_pct)

/-- A whole driver run: the driver sets `(processed_files, total_files)` to
each pair in turn and calls the gate; `last_notification_pct` is threaded
through. -/
def gate_trace (ts : List Int) : Int → List (Nat × Nat) → List GateEvent
  | _, [] => []
  | last, c :: cs =>
      let r := gate_step ts last c
      { call := c, fired := r.1, lastAfter := r.2 } :: gate_trace ts r.2 cs

/-- The thresholds that fired along a trace, in order of firing (when a call
fires, the fired threshold is the new `last_notification_pct`). -/
def fired_thresholds : List GateEvent → List Int
  | [] => []
  | e :: es => if e.fired then e.lastAfter :: fired_thresholds es else fired_thresholds es

/-- A notifier state in remote mode (a webhook URL was supplied). -/
def mkRemoteState : NotifierState :=
  { notification_percentages := [20, 100]
    last_notification_pct := 0
    total_files := 0
    processed_files := 0
    error_files := 0
    webhook_url := some "https://hooks.example/services/T"
    use_logging := false
    system_name := "sys"
    notification_log_path := "notifications.log" }

/-- The field entries of a block when it is a field-group section. -/
def block_field_group : Block → Option (List String)
  | Block.sectionFields g => some g
  | _ => none

/-- The field-group section blocks of a block sequence, in order. -/
def field_groups (blocks : List Block) : List (List String) :=
  blocks.filterMap block_field_group

/-! ## Lemmas about the threshold gate -/

theorem find_fire_eq_some {pct : ℚ} {last t : Int} :
    ∀ {ts : List Int}, find_fire pct last ts = some t →
      t ∈ ts ∧ (t : ℚ) ≤ pct ∧ last < t := by
  intro ts
  induction ts with
  | nil => intro h; simp [find_fire] at h
  | cons a as ih =>
      intro h
      simp only [find_fire] at h
      split at h
      · rename_i hc
        cases h
        exact ⟨List.mem_cons_self _ _, hc.1, hc.2⟩
      · rcases ih h with ⟨h1, h2, h3⟩
        exact ⟨List.mem_cons_of_mem _ h1, h2, h3⟩

theorem should_send_notification_cases (s : NotifierState) :
    should_send_notification s = (false, s) ∨
    ∃ t : Int, should_send_notification s = (true, { s with last_notification_pct := t }) ∧
      s.total_files ≠ 0 ∧ t ∈ s.notification_percentages ∧
      s.last_notification_pct < t ∧
      (t : ℚ) ≤ (s.processed_files : ℚ) / (s.total_files : ℚ) * 100 := by
  by_cases h0 : s.total_files = 0
  · left
    simp [should_send_notification, h0]
  · rcases hf : find_fire ((s.processed_files : ℚ) / (s.total_files : ℚ) * 100)
        s.last_notification_pct s.notification_percentages with _ | t
    · left
      simp [should_send_notification, h0, hf]
    · right
      rcases find_fire_eq_some hf with ⟨h1, h2, h3⟩
      exact ⟨t, by simp [should_send_notification, h0, hf], h0, h1, h3, h2⟩

theorem gate_step_cases (ts : List Int) (last : Int) (c : Nat × Nat) :
    gate_step ts last c = (false, last) ∨
    ∃ t : Int, gate_step ts last c = (true, t) ∧ last < t ∧ t ∈ ts ∧ c.2 ≠ 0 ∧
      (t : ℚ) ≤ (c.1 : ℚ) / (c.2 : ℚ) * 100 := by
  rcases should_send_notification_cases (mkState ts last c.1 c.2) with h | ⟨t, h, h0, h1, h2, h3⟩
  · left
    simp only [gate_step, h]
    rfl
  · right
    simp only [mkState] at h0 h1 h2 h3
    exact ⟨t, by simp only [gate_step, h], h2, h1, h0, h3⟩

theorem gate_trace_cons (ts : List Int) (last : Int) (c : Nat × Nat) (cs : List (Nat × Nat)) :
    gate_trace ts last (c :: cs) =
      { call := c, fired := (gate_step ts last c).1, lastAfter := (gate_step ts last c).2 } ::
        gate_trace ts (gate_step ts last c).2 cs := rfl

theorem gate_trace_fired_mem_gt (ts : List Int) :
    ∀ (calls : List (Nat × Nat)) (last : Int),
      ∀ t ∈ fired_thresholds (gate_trace ts last calls), last < t ∧ t ∈ ts := by
  intro calls
  induction calls with
  | nil => intro last t ht; simp [gate_trace, fired_thresholds] at ht
  | cons c cs ih =>
      intro last t ht
      rw [gate_trace_cons] at ht
      rcases gate_step_cases ts last c with hstep | ⟨t0, hstep, hlt, hmem, _, _⟩
      · rw [hstep] at ht
        simp [fired_thresholds] at ht
        exact ih last t ht
      · rw [hstep] at ht
        simp [fired_thresholds] at ht
        rcases ht with rfl | ht
        · exact ⟨hlt, hmem⟩
        · rcases ih t0 t ht with ⟨h1, h2⟩
          exact ⟨lt_trans hlt h1, h2⟩

theorem gate_trace_fired_pairwise (ts : List Int) :
    ∀ (calls : List (Nat × Nat)) (last : Int),
      (fired_thresholds (gate_trace ts last calls)).Pairwise (· < ·) := by
  intro calls
  induction calls with
  | nil => intro last; simp [gate_trace, fired_thresholds]
  | cons c cs ih =>
      intro last
      rw [gate_trace_cons]
      rcases gate_step_cases ts last c with hstep | ⟨t0, hstep, _, _, _, _⟩
      · rw [hstep]
        simp [fired_thresholds]
        exact ih last
      · rw [hstep]
        simp [fired_thresholds]
        constructor
        · intro b hb
          exact (gate_trace_fired_mem_gt ts cs t0 b hb).1
        · exact ih t0

theorem gate_trace_chain (ts : List Int) :
    ∀ (calls : List (Nat × Nat)) (last : Int),
      List.Chain' (· ≤ ·) (last :: (gate_trace ts last calls).map GateEvent.lastAfter) := by
  intro calls
  induction calls with
  | nil => intro last; simp [gate_trace]
  | cons c cs ih =>
      intro last
      rw [gate_trace_cons]
      rcases gate_step_cases ts last c with hstep | ⟨t0, hstep, hlt, _, _, _⟩
      · rw [hstep]
        exact List.chain'_cons.mpr ⟨le_rfl, ih last⟩
      · rw [hstep]
        exact List.chain'_cons.mpr ⟨le_of_lt hlt, ih t0⟩

theorem gate_trace_fired_props (ts : List Int) :
    ∀ (calls : List (Nat × Nat)) (last : Int),
      ∀ e ∈ gate_trace ts last calls, e.fired = true →
        e.lastAfter ∈ ts ∧ e.call.2 ≠ 0 ∧
        (e.lastAfter : ℚ) ≤ (e.call.1 : ℚ) / (e.call.2 : ℚ) * 100 := by
  intro calls
  induction calls with
  | nil => intro last e he; simp [gate_trace] at he
  | cons c cs ih =>
      intro last e he hf
      rw [gate_trace_cons] at he
      rcases gate_step_cases ts last c with hstep | ⟨t0, hstep, _, hmem, hnz, hpct⟩
      · rw [hstep] at he
        simp at he
        rcases he with rfl | he
        · simp at hf
        · exact ih last e he hf
      · rw [hstep] at he
        simp at he
        rcases he with rfl | he
        · exact ⟨hmem, hnz, hpct⟩
        · exact ih t0 e he hf

/-! ## Lemmas about block construction -/

theorem chunks_of_ten_ne_nil (l : List α) (h : l ≠ []) :
    chunks_of_ten l = l.take 10 :: chunks_of_ten (l.drop 10) := by
  cases l with
  | nil => cases h rfl
  | cons x xs => rw [chunks_of_ten]

theorem chunks_of_ten_length : ∀ (l : List α), (chunks_of_ten l).length = (l.length + 9) / 10 := by
  intro l
  induction l using chunks_of_ten.induct with
  | case1 => simp [chunks_of_ten]
  | case2 x xs ih =>
      rw [chunks_of_ten_ne_nil _ (List.cons_ne_nil x xs)]
      simp only [List.length_cons, ih, List.length_drop]
      omega

theorem chunks_of_ten_flatten : ∀ (l : List α), (chunks_of_ten l).flatten = l := by
  intro l
  induction l using chunks_of_ten.induct with
  | case1 => simp [chunks_of_ten]
  | case2 x xs ih =>
      rw [chunks_of_ten_ne_nil _ (List.cons_ne_nil x xs), List.flatten_cons, ih,
        List.take_append_drop]

theorem chunks_of_ten_le (l : List α) : ∀ g ∈ chunks_of_ten l, g.length ≤ 10 := by
  induction l using chunks_of_ten.induct with
  | case1 => simp [chunks_of_ten]
  | case2 x xs ih =>
      rw [chunks_of_ten_ne_nil _ (List.cons_ne_nil x xs)]
      intro g hg
      rcases List.mem_cons.mp hg with rfl | hg
      · simp [List.length_take]
      · exact ih g hg

theorem chunks_of_ten_twelve (l : List α) (h : l.length = 12) :
    chunks_of_ten l = [l.take 10, l.drop 10] := by
  have h1 : l ≠ [] := by intro he; rw [he] at h; simp at h
  have h2 : l.drop 10 ≠ [] := by
    intro he
    have := congrArg List.length he
    simp [List.length_drop, h] at this
  rw [chunks_of_ten_ne_nil l h1, chunks_of_ten_ne_nil _ h2]
  have h3 : (l.drop 10).drop 10 = [] := by
    rw [List.drop_drop]
    apply List.drop_eq_nil_of_le
    omega
  have h4 : (l.drop 10).take 10 = l.drop 10 := by
    apply List.take_of_length_le
    simp [List.length_drop, h]
  rw [h3, h4, chunks_of_ten]

theorem field_groups_create_message_blocks (s : NotifierState) (level : NotificationLevel)
    (message : String) (title : Option String) (fields : List (String × FieldValue))
    (cb : List (String × String)) (now : String) :
    field_groups (create_message_blocks s level message title fields cb now) =
      chunks_of_ten (fields.map format_field_for_blocks) := by
  by_cases hf : fields = [] <;>
    cases title <;>
      simp [field_groups, create_message_blocks, hf, chunks_of_ten, block_field_group,
        List.filterMap_append, List.filterMap_map, Function.comp_def]

/-! ## Frame lemmas -/

theorem send_notification_state_eq (s : NotifierState) (level : NotificationLevel)
    (message : String) (title : Option String) (fields : List (String × FieldValue))
    (cb : List (String × String)) (tr : TransportResult) (now : String) :
    (send_notification s level message title fields cb tr now).1 = s := by
  by_cases h : s.use_logging
  · simp [send_notification, h]
  · cases tr with
    | exn => simp [send_notification, h]
    | ok c => by_cases hc : raise_for_status_raises c <;> simp [send_notification, h, hc]

theorem should_send_notification_frame (s : NotifierState) :
    (should_send_notification s).2.notification_percentages = s.notification_percentages ∧
    (should_send_notification s).2.total_files = s.total_files ∧
    (should_send_notification s).2.processed_files = s.processed_files ∧
    (should_send_notification s).2.error_files = s.error_files ∧
    (should_send_notification s).2.webhook_url = s.webhook_url ∧
    (should_send_notification s).2.use_logging = s.use_logging ∧
    (should_send_notification s).2.system_name = s.system_name ∧
    (should_send_notification s).2.notification_log_path = s.notification_log_path := by
  rcases should_send_notification_cases s with h | ⟨t, h, _, _, _, _⟩ <;> rw [h] <;>
    exact ⟨rfl, rfl, rfl, rfl, rfl, rfl, rfl, rfl⟩

theorem send_progress_notification_frame (s : NotifierState) (success : Bool)
    (eh : ℚ) (tr : TransportResult) (now : String) :
    (send_progress_notification s success eh tr now).1.notification_percentages =
      s.notification_percentages ∧
    (send_progress_notification s success eh tr now).1.total_files = s.total_files ∧
    (send_progress_notification s success eh tr now).1.processed_files = s.processed_files ∧
    (send_progress_notification s success eh tr now).1.webhook_url = s.webhook_url ∧
    (send_progress_notification s success eh tr now).1.use_logging = s.use_logging ∧
    (send_progress_notification s success eh tr now).1.system_name = s.system_name ∧
    (send_progress_notification s success eh tr now).1.notification_log_path =
      s.notification_log_path := by
  rcases should_send_notification_cases s with h | ⟨t, h, _, _, _, _⟩ <;>
    cases success <;>
      refine ⟨?_, ?_, ?_, ?_, ?_, ?_, ?_⟩ <;>
        simp [send_progress_notification, h, send_info, send_notification_state_eq]

/-! ## Claim theorems -/

/-- C1: for every threshold list and every driver-supplied progress sequence,
the thresholds fired by `should_send_notification` form a strictly increasing
sequence (hence each threshold fires at most once, and firings are in
ascending order), a call fires only when `total_files ≠ 0` and
`processed_files / total_files * 100 ≥` the fired threshold, and
`last_notification_pct` is monotonically non-decreasing across calls. -/
theorem thm_C1_gate_invariants (ts : List Int) (last0 : Int) (calls : List (Nat × Nat)) :
    (fired_thresholds (gate_trace ts last0 calls)).Pairwise (· < ·) ∧
    (∀ e ∈ gate_trace ts last0 calls, e.fired = true →
      e.lastAfter ∈ ts ∧ e.call.2 ≠ 0 ∧
      (e.lastAfter : ℚ) ≤ (e.call.1 : ℚ) / (e.call.2 : ℚ) * 100) ∧
    List.Chain' (· ≤ ·) (last0 :: (gate_trace ts last0 calls).map GateEvent.lastAfter) :=
  ⟨gate_trace_fired_pairwise ts calls last0,
   gate_trace_fired_props ts calls last0,
   gate_trace_chain ts calls last0⟩

/-- C2 counterexample: with thresholds {20, 100}, `last_notification_pct = 0`
and `processed_files` jumping from 0% to 100% of `total_files` (5 of 5) in one
step, the single gate call fires — but the threshold that fires is 20, not 100
(the loop scans the sorted list and fires the first, i.e. lowest, match). -/
theorem thm_C2_counterexample :
    (should_send_notification (mkState [20, 100] 0 5 5)).1 = true ∧
    (should_send_notification (mkState [20, 100] 0 5 5)).2.last_notification_pct = 20 ∧
    (20 : Int) ≠ 100 := by
  refine ⟨?_, ?_, by decide⟩ <;> norm_num [should_send_notification, find_fire, mkState]

/-- C2 amended: with thresholds {20, 100}, `last_notification_pct = 0` and
`processed_files` jumping from 0% to 100% in a single step, one call to the
gate fires exactly one notification, and the threshold that fires is 20 — the
lowest unfired threshold — with `last_notification_pct` advancing to 20. -/
theorem thm_C2_jump_fires_lowest (n : Nat) (h : n ≠ 0) :
    should_send_notification (mkState [20, 100] 0 n n) =
      (true, { mkState [20, 100] 0 n n with last_notification_pct := 20 }) := by
  have hn : (n : ℚ) ≠ 0 := Nat.cast_ne_zero.mpr h
  have hpct : ((n : ℚ) / (n : ℚ) * 100) = 100 := by rw [div_self hn, one_mul]
  simp only [should_send_notification, mkState, hpct, find_fire]
  norm_num [h]

/-- Witness for the amended theorem of C2 at `n = 5`. -/
theorem thm_C2_jump_fires_lowest_witness :
    should_send_notification (mkState [20, 100] 0 5 5) =
      (true, { mkState [20, 100] 0 5 5 with last_notification_pct := 20 }) :=
  thm_C2_jump_fires_lowest 5 (by decide)

/-- C6: whenever `total_files = 0`, `should_send_notification` returns `false`
with the state unchanged; the early return precedes the percentage
computation, so the division is never evaluated. -/
theorem thm_C6_zero_total (s : NotifierState) (h : s.total_files = 0) :
    should_send_notification s = (false, s) := by
  simp [should_send_notification, h]

/-- Witness for C6 at a concrete state with `processed_files = 7`,
`total_files = 0`. -/
theorem thm_C6_zero_total_witness :
    (mkState [20, 100] 0 7 0).total_files = 0 ∧
    should_send_notification (mkState [20, 100] 0 7 0) = (false, mkState [20, 100] 0 7 0) :=
  ⟨rfl, thm_C6_zero_total _ rfl⟩

/-- C8 counterexample: the constructor only sorts the parsed integers — it
neither de-duplicates nor restricts them to [0, 100].  Parsing "20,150,20"
yields [20, 20, 150]: it has a duplicate and contains 150 > 100. -/
theorem thm_C8_counterexample :
    init_notification_percentages [20, 150, 20] = [20, 20, 150] ∧
    ¬ (init_notification_percentages [20, 150, 20]).Nodup ∧
    (150 : Int) ∈ init_notification_percentages [20, 150, 20] ∧
    ¬ ((150 : Int) ≤ 100) := by
  refine ⟨by decide, ?_, by decide, by decide⟩
  intro h
  rw [show init_notification_percentages [20, 150, 20] = [20, 20, 150] from by decide] at h
  simp at h

/-- C8 amended: after construction the thresholds sequence is sorted in
non-decreasing order and is a permutation of the parsed configuration integers
(duplicates are kept and values are not clamped to [0, 100]); with the default
configuration "20,100" it equals [20, 100]. -/
theorem thm_C8_sorted_default (xs : List Int) :
    (init_notification_percentages xs).Sorted (· ≤ ·) ∧
    (init_notification_percentages xs).Perm xs ∧
    init_notification_percentages [20, 100] = [20, 100] :=
  ⟨List.sorted_insertionSort (· ≤ ·) xs, List.perm_insertionSort (· ≤ ·) xs, by decide⟩

/-- C3 (the code evaluated at the failing input): with thresholds {20, 100},
`last_notification_pct = 0` and 10 of 100 files processed, a call to
`send_progress_notification` reporting a failed unit (`success = false`)
returns without incrementing `error_files`: the gate is consulted first, does
not fire, and the method returns early, so the failed unit is never counted —
contrary to the spec, which increments `error_units` before consulting the
gate. -/
theorem thm_C3_error_increment_skipped :
    (send_progress_notification (mkState [20, 100] 0 10 100) false 0
        TransportResult.exn "t").1.error_files = 0 ∧
    (send_progress_notification (mkState [20, 100] 0 10 100) false 0
        TransportResult.exn "t").2 = none := by
  have hg : should_send_notification (mkState [20, 100] 0 10 100) =
      (false, mkState [20, 100] 0 10 100) := by
    norm_num [should_send_notification, find_fire, mkState]
  have h1 : send_progress_notification (mkState [20, 100] 0 10 100) false 0
      TransportResult.exn "t" = (mkState [20, 100] 0 10 100, none) := by
    simp [send_progress_notification, hg]
  rw [h1]
  exact ⟨rfl, rfl⟩

/-- C4 counterexample: in remote mode a response with the non-2xx status 301
makes `send_notification` return `true`, because
`requests.Response.raise_for_status` only raises for status codes in
[400, 600) — the claim says every non-2xx status yields `false`. -/
theorem thm_C4_counterexample :
    (send_notification mkRemoteState NotificationLevel.INFO "m" none [] []
        (TransportResult.ok 301) "t").2.success = true ∧
    ¬ (200 ≤ 301 ∧ 301 < 300) := by
  constructor
  · rfl
  · decide

/-- C4 amended: in remote mode, for every input, if the transport raises an
exception or returns a status in [400, 600) (the codes for which
`raise_for_status` raises), `send_notification` returns `false`; a returned
status outside [400, 600) — including redirect-class non-2xx codes — yields
`true`.  In all cases exactly one outbound request is attempted (no retry),
the state is unchanged, and no exception propagates (the embedding is a total
function into `Bool`). -/
theorem thm_C4_remote_failure (s : NotifierState) (h : s.use_logging = false)
    (level : NotificationLevel) (message : String) (title : Option String)
    (fields : List (String × FieldValue)) (cb : List (String × String))
    (tr : TransportResult) (now : String) :
    (send_notification s level message title fields cb tr now).2.requests_sent.length = 1 ∧
    (send_notification s level message title fields cb tr now).1 = s ∧
    (tr = TransportResult.exn →
      (send_notification s level message title fields cb tr now).2.success = false) ∧
    (∀ c, tr = TransportResult.ok c →
      ((send_notification s level message title fields cb tr now).2.success = false ↔
        400 ≤ c ∧ c < 600)) := by
  cases tr with
  | exn =>
      refine ⟨?_, ?_, ?_, ?_⟩
      · simp [send_notification, h]
      · simp [send_notification, h]
      · intro _
        simp [send_notification, h]
      · intro c hc
        cases hc
  | ok c =>
      refine ⟨?_, ?_, ?_, ?_⟩
      · by_cases hc : 400 ≤ c ∧ c < 600 <;>
          simp [send_notification, h, raise_for_status_raises, hc]
      · by_cases hc : 400 ≤ c ∧ c < 600 <;>
          simp [send_notification, h, raise_for_status_raises, hc]
      · intro h'
        cases h'
      · intro c' hc'
        injection hc' with he
        subst he
        by_cases hc : 400 ≤ c ∧ c < 600 <;>
          simp [send_notification, h, raise_for_status_raises, hc]

/-- Witness for the amended theorem of C4: a 500 response in remote mode returns
`false` with exactly one request attempted. -/
theorem thm_C4_remote_failure_witness :
    mkRemoteState.use_logging = false ∧
    (send_notification mkRemoteState NotificationLevel.INFO "m" none [] []
        (TransportResult.ok 500) "t").2.success = false ∧
    (send_notification mkRemoteState NotificationLevel.INFO "m" none [] []
        (TransportResult.ok 500) "t").2.requests_sent.length = 1 := by
  have h := thm_C4_remote_failure mkRemoteState rfl NotificationLevel.INFO "m" none [] []
    (TransportResult.ok 500) "t"
  exact ⟨rfl, (h.2.2.2 500 rfl).mpr (by decide), h.1⟩

/-- C5: in local-log mode `send_notification` returns `true` for every
combination of level, message, title, fields and code-block inputs, appending
exactly one record; it never returns `false` (and, being a total function in
the embedding, never raises). -/
theorem thm_C5_local_always_true (s : NotifierState) (h : s.use_logging = true)
    (level : NotificationLevel) (message : String) (title : Option String)
    (fields : List (String × FieldValue)) (cb : List (String × String))
    (tr : TransportResult) (now : String) :
    (send_notification s level message title fields cb tr now).2.success = true ∧
    (send_notification s level message title fields cb tr now).2.logged =
      [log_notification level message title fields cb] := by
  constructor <;> simp [send_notification, h]

/-- Witness for C5 at a concrete local-mode state and inputs. -/
theorem thm_C5_local_always_true_witness :
    (mkState [20, 100] 0 0 0).use_logging = true ∧
    (send_notification (mkState [20, 100] 0 0 0) NotificationLevel.ERROR "boom"
        (some "T") [("k", FieldValue.str "v")] [("c", "code")]
        TransportResult.exn "now").2.success = true :=
  ⟨rfl, (thm_C5_local_always_true (mkState [20, 100] 0 0 0) rfl NotificationLevel.ERROR
    "boom" (some "T") [("k", FieldValue.str "v")] [("c", "code")]
    TransportResult.exn "now").1⟩

/-- C7: the field-group section blocks built by `_create_message_blocks` are
the formatted fields split into consecutive chunks of at most 10, in the
original order: there are ceil(n/10) = (n+9)/10 groups, each of length ≤ 10,
and their concatenation is the formatted field list; with 12 fields there are
exactly two groups, of 10 and 2 entries. -/
theorem thm_C7_field_grouping (s : NotifierState) (level : NotificationLevel)
    (message : String) (title : Option String) (fields : List (String × FieldValue))
    (cb : List (String × String)) (now : String) :
    (field_groups (create_message_blocks s level message title fields cb now)).length =
      (fields.length + 9) / 10 ∧
    (∀ g ∈ field_groups (create_message_blocks s level message title fields cb now),
      g.length ≤ 10) ∧
    (field_groups (create_message_blocks s level message title fields cb now)).flatten =
      fields.map format_field_for_blocks ∧
    (fields.length = 12 →
      field_groups (create_message_blocks s level message title fields cb now) =
        [(fields.map format_field_for_blocks).take 10,
         (fields.map format_field_for_blocks).drop 10] ∧
      ((fields.map format_field_for_blocks).take 10).length = 10 ∧
      ((fields.map format_field_for_blocks).drop 10).length = 2) := by
  rw [field_groups_create_message_blocks]
  refine ⟨?_, chunks_of_ten_le _, chunks_of_ten_flatten _, fun h12 => ?_⟩
  · rw [chunks_of_ten_length, List.length_map]
  · have hl : (fields.map format_field_for_blocks).length = 12 := by
      rw [List.length_map, h12]
    refine ⟨chunks_of_ten_twelve _ hl, ?_, ?_⟩
    · rw [List.length_take, hl]
      decide
    · rw [List.length_drop, hl]

/-- Witness for C7 with a concrete 12-entry fields mapping. -/
theorem thm_C7_field_grouping_witness :
    (List.replicate 12 (("k", FieldValue.str "v"))).length = 12 ∧
    (field_groups (create_message_blocks mkRemoteState NotificationLevel.INFO "m" none
        (List.replicate 12 (("k", FieldValue.str "v"))) [] "t")).length = 2 := by
  have h := thm_C7_field_grouping mkRemoteState NotificationLevel.INFO "m" none
    (List.replicate 12 (("k", FieldValue.str "v"))) [] "t"
  refine ⟨by simp, ?_⟩
  rw [h.1]
  simp

/-- C9: no operation after construction modifies the thresholds list,
`total_files`, `system_name`, `webhook_url` or the mode flag `use_logging`:
`send_notification` (and therefore each of the five severity wrappers, which
are thin pass-throughs to it) leaves the whole state unchanged;
`should_send_notification` can change `last_notification_pct` only; and
`send_progress_notification` can change only `last_notification_pct` and
`error_files`. -/
theorem thm_C9_frame (s : NotifierState) (level : NotificationLevel) (message : String)
    (title : Option String) (fields : List (String × FieldValue))
    (cb : List (String × String)) (tr : TransportResult) (now : String)
    (success : Bool) (eh : ℚ) :
    (send_notification s level message title fields cb tr now).1 = s ∧
    send_success s message title fields cb tr now =
      send_notification s NotificationLevel.SUCCESS message title fields cb tr now ∧
    send_warning s message title fields cb tr now =
      send_notification s NotificationLevel.WARNING message title fields cb tr now ∧
    send_error s message title fields cb tr now =
      send_notification s NotificationLevel.ERROR message title fields cb tr now ∧
    send_info s message title fields cb tr now =
      send_notification s NotificationLevel.INFO message title fields cb tr now ∧
    send_debug s message title fields cb tr now =
      send_notification s NotificationLevel.DEBUG message title fields cb tr now ∧
    ((should_send_notification s).2.notification_percentages = s.notification_percentages ∧
     (should_send_notification s).2.total_files = s.total_files ∧
     (should_send_notification s).2.processed_files = s.processed_files ∧
     (should_send_notification s).2.error_files = s.error_files ∧
     (should_send_notification s).2.webhook_url = s.webhook_url ∧
     (should_send_notification s).2.use_logging = s.use_logging ∧
     (should_send_notification s).2.system_name = s.system_name ∧
     (should_send_notification s).2.notification_log_path = s.notification_log_path) ∧
    ((send_progress_notification s success eh tr now).1.notification_percentages =
       s.notification_percentages ∧
     (send_progress_notification s success eh tr now).1.total_files = s.total_files ∧
     (send_progress_notification s success eh tr now).1.processed_files = s.processed_files ∧
     (send_progress_notification s success eh tr now).1.webhook_url = s.webhook_url ∧
     (send_progress_notification s success eh tr now).1.use_logging = s.use_logging ∧
     (send_progress_notification s success eh tr now).1.system_name = s.system_name ∧
     (send_progress_notification s success eh tr now).1.notification_log_path =
       s.notification_log_path) :=
  ⟨send_notification_state_eq s level message title fields cb tr now,
   rfl, rfl, rfl, rfl, rfl,
   should_send_notification_frame s,
   send_progress_notification_frame s success eh tr now⟩

/-- C10: when the gate fires inside `send_progress_notification`,
`last_notification_pct` has already advanced to the fired threshold, it keeps
that value whatever the delivery outcome `tr` is (a failed remote delivery
does not roll it back), a progress notification is emitted, and from any later
state whose `last_notification_pct` is at least the fired threshold, any
further firing is of a strictly greater threshold — the failed one is never
attempted again. -/
theorem thm_C10_fired_threshold_sticks (s : NotifierState) (success : Bool) (eh : ℚ)
    (tr : TransportResult) (now : String)
    (h : (should_send_notification s).1 = true) :
    (send_progress_notification s success eh tr now).1.last_notification_pct =
      (should_send_notification s).2.last_notification_pct ∧
    (send_progress_notification s success eh tr now).2.isSome = true ∧
    (∀ s' : NotifierState,
      (should_send_notification s).2.last_notification_pct ≤ s'.last_notification_pct →
      (should_send_notification s').1 = true →
      (should_send_notification s).2.last_notification_pct <
        (should_send_notification s').2.last_notification_pct) := by
  rcases should_send_notification_cases s with he | ⟨t, he, _, _, _, _⟩
  · rw [he] at h
    cases h
  · have hlast : (should_send_notification s).2.last_notification_pct = t := by rw [he]
    refine ⟨?_, ?_, ?_⟩
    · rw [hlast]
      cases success <;>
        simp [send_progress_notification, he, send_info, send_notification_state_eq]
    · cases success <;> simp [send_progress_notification, he, send_info]
    · intro s' hle hfire
      rcases should_send_notification_cases s' with he' | ⟨t', he', _, _, hlt', _⟩
      · rw [he'] at hfire
        cases hfire
      · rw [hlast] at hle ⊢
        rw [he']
        exact lt_of_le_of_lt hle hlt'

/-- Witness for C10 at a concrete state: thresholds {20, 100}, 1 of 2 files
processed, gate fires (threshold 20) and `last_notification_pct` is 20 after
`send_progress_notification`, even though the transport raised. -/
theorem thm_C10_fired_threshold_sticks_witness :
    (should_send_notification (mkState [20, 100] 0 1 2)).1 = true ∧
    (send_progress_notification (mkState [20, 100] 0 1 2) true 0
        TransportResult.exn "t").1.last_notification_pct =
      (should_send_notification (mkState [20, 100] 0 1 2)).2.last_notification_pct := by
  have h : (should_send_notification (mkState [20, 100] 0 1 2)).1 = true := by
    norm_num [should_send_notification, find_fire, mkState]
  exact ⟨h, (thm_C10_fired_threshold_sticks (mkState [20, 100] 0 1 2) true 0
    TransportResult.exn "t" h).1⟩

end SlackNotifier
